import Mathlib

/-!
Shallow embedding of the student-CRUD service in src/main.py.

The relational store is modelled as an explicit state: the list of
persisted rows of the estudiantes table together with the autoincrement
counter backing the id primary key.  Each route handler becomes a
function from its inputs and the store state to a result paired with the
store state observed after the call.  For the read handlers and the
delete handler a Boolean parameter storeOk models whether the store
statements issued during the call succeed (true) or raise (false,
e.g. connectivity loss); on false the handler follows its except-branch
from the source: db.rollback() and an HTTP 500 error.  The create and
update handlers run db.refresh after db.commit, so their failure point
matters: a StoreFail parameter distinguishes a failure at or before the
commit (rolled back, nothing persisted) from a failure of the post-commit
refresh (the 500 propagates with the insert or update already committed,
since db.rollback() only discards the fresh post-commit transaction).
-/

/-- A persisted row of the estudiantes table (class Estudiante in the
source).  The columns nombre and edad carry no NOT NULL constraint in the
source model, so at the store level they are nullable; id is the primary
key and hence non-null. -/
structure Estudiante where
  id : Int
  nombre : Option String
  edad : Option Int
deriving Repr, DecidableEq

/-- Request body for create and update (pydantic schema EstudianteCreate):
both fields are required and non-null. -/
structure EstudianteCreate where
  nombre : String
  edad : Int
deriving Repr, DecidableEq

/-- Response schema EstudianteResponse: id, nombre, edad all present. -/
structure EstudianteResponse where
  id : Int
  nombre : String
  edad : Int
deriving Repr, DecidableEq

/-- Response body of the delete handler. -/
structure DeleteResponse where
  mensaje : String
  id : Int
deriving Repr, DecidableEq

/-- The persisted store state: the rows of the estudiantes table plus the
autoincrement counter that assigns the next id. -/
structure DBState where
  rows : List Estudiante
  nextId : Int
deriving Repr, DecidableEq

/-- Errors surfaced by the handlers: HTTPException 404 (registro no
encontrado) and HTTPException 500 (store failure). -/
inductive ApiError where
  | notFound
  | storeError
deriving Repr, DecidableEq

/-- The HTTP status code attached to each error. -/
def ApiError.statusCode : ApiError → Nat
  | .notFound => 404
  | .storeError => 500

/-- Models db.query(Estudiante).filter(Estudiante.id == id).first(). -/
def firstById (id : Int) (rows : List Estudiante) : Option Estudiante :=
  rows.find? (fun r => r.id == id)

/-- Models db.rollback() in the except branches: the uncommitted
in-transaction changes are discarded, so the persisted state observed
after the call is the state at transaction start. -/
def db_rollback (persisted : DBState) (_pending : DBState) : DBState :=
  persisted

/-- The ordering on rows used by order_by(Estudiante.id): ascending id. -/
def idLe (a b : Estudiante) : Prop := a.id ≤ b.id

instance : DecidableRel idLe :=
  fun a b => inferInstanceAs (Decidable (a.id ≤ b.id))

instance : IsTotal Estudiante idLe := ⟨fun a b => Int.le_total a.id b.id⟩

instance : IsTrans Estudiante idLe := ⟨fun _ _ _ hab hbc => le_trans hab hbc⟩

/-- Models the store executing order_by(Estudiante.id): the rows sorted
in ascending id order. -/
def sortById (rows : List Estudiante) : List Estudiante :=
  rows.insertionSort idLe

/-- Handler GET /estudiantes/ (get_estudiantes in the source): select all
rows ordered by id; on a store failure, HTTP 500. -/
def get_estudiantes (storeOk : Bool) (s : DBState) :
    Except ApiError (List Estudiante) × DBState :=
  if storeOk then (Except.ok (sortById s.rows), s)
  else (Except.error ApiError.storeError, s)

/-- Handler GET /estudiantes/id (get_estudiante in the source): select
the first row matching id; 404 when absent; 500 on store failure. -/
def get_estudiante (id : Int) (storeOk : Bool) (s : DBState) :
    Except ApiError Estudiante × DBState :=
  if storeOk then
    match firstById id s.rows with
    | some est => (Except.ok est, s)
    | none => (Except.error ApiError.notFound, s)
  else (Except.error ApiError.storeError, s)

/-- Outcome of the store statements issued by the create and update
handlers, which run db.refresh after db.commit: ok means every statement
succeeds; atCommit means a statement at or before the commit raises (the
query, the flush of the insert or update, or the commit itself), so
nothing is durable and db.rollback() restores the pre-call state;
atRefresh means everything up to and including the commit succeeds and
the refresh SELECT then raises, so the except branch fires with the
write already committed and db.rollback() only discards the fresh
post-commit transaction. -/
inductive StoreFail where
  | ok
  | atCommit
  | atRefresh
deriving Repr, DecidableEq

/-- Handler POST /estudiantes/ (crear_estudiante in the source): insert a
row with the store-assigned id, commit, refresh, and return it; on a
failure at or before the commit, db.rollback() then HTTP 500 with
nothing persisted; on a refresh failure after the commit, HTTP 500 with
the insert already committed. -/
def crear_estudiante (e : EstudianteCreate) (fail : StoreFail) (s : DBState) :
    Except ApiError EstudianteResponse × DBState :=
  let nuevo : Estudiante :=
    { id := s.nextId, nombre := some e.nombre, edad := some e.edad }
  let pending : DBState := { rows := s.rows ++ [nuevo], nextId := s.nextId + 1 }
  match fail with
  | StoreFail.ok =>
    (Except.ok { id := nuevo.id, nombre := e.nombre, edad := e.edad }, pending)
  | StoreFail.atCommit =>
    (Except.error ApiError.storeError, db_rollback s pending)
  | StoreFail.atRefresh =>
    (Except.error ApiError.storeError, pending)

/-- Overwrite nombre and edad of the first row matching id, as the update
handler does to the object returned by first(). -/
def updateFirst (id : Int) (e : EstudianteCreate) :
    List Estudiante → List Estudiante
  | [] => []
  | r :: rs =>
    if r.id == id then
      { r with nombre := some e.nombre, edad := some e.edad } :: rs
    else r :: updateFirst id e rs

/-- Handler PUT /estudiantes/id (modificar_estudiante in the source):
locate the row by id; 404 when absent; else overwrite nombre and edad,
commit, refresh, return the row.  On a failure at or before the commit,
db.rollback() then HTTP 500 with nothing persisted; on a refresh failure
after a successful commit (which is only reached when the id was found),
HTTP 500 with the update already committed. -/
def modificar_estudiante (id : Int) (e : EstudianteCreate) (fail : StoreFail)
    (s : DBState) : Except ApiError EstudianteResponse × DBState :=
  match fail with
  | StoreFail.ok =>
    match firstById id s.rows with
    | none => (Except.error ApiError.notFound, s)
    | some _ =>
      let pending : DBState := { rows := updateFirst id e s.rows, nextId := s.nextId }
      (Except.ok { id := id, nombre := e.nombre, edad := e.edad }, pending)
  | StoreFail.atCommit =>
    (Except.error ApiError.storeError,
     db_rollback s { rows := updateFirst id e s.rows, nextId := s.nextId })
  | StoreFail.atRefresh =>
    match firstById id s.rows with
    | none => (Except.error ApiError.notFound, s)
    | some _ =>
      (Except.error ApiError.storeError,
       { rows := updateFirst id e s.rows, nextId := s.nextId })

/-- Remove the first row matching id, as db.delete applied to the object
returned by first(). -/
def eraseFirstById (id : Int) : List Estudiante → List Estudiante
  | [] => []
  | r :: rs => if r.id == id then rs else r :: eraseFirstById id rs

/-- Handler DELETE /estudiantes/id (eliminar_estudiante in the source):
locate the row by id; 404 when absent; else delete the row, commit, and
confirm with the deleted id; on store failure, db.rollback() then 500. -/
def eliminar_estudiante (id : Int) (storeOk : Bool) (s : DBState) :
    Except ApiError DeleteResponse × DBState :=
  if storeOk then
    match firstById id s.rows with
    | none => (Except.error ApiError.notFound, s)
    | some _ =>
      (Except.ok { mensaje := "Estudiante eliminado exitosamente", id := id },
       { rows := eraseFirstById id s.rows, nextId := s.nextId })
  else
    (Except.error ApiError.storeError,
     db_rollback s { rows := eraseFirstById id s.rows, nextId := s.nextId })

/-- Body of the health endpoint response: the HTTP status code and the
status and database fields of the JSON payload. -/
structure HealthResponse where
  statusCode : Nat
  status : String
  database : String
deriving Repr, DecidableEq

/-- Handler GET /health (health_check in the source): run the trivial
round-trip SELECT 1 on a raw engine connection; report 200 connected on
success, 503 disconnected on failure.  storeOk models whether that
round-trip succeeds; the handler never opens a session on the table, so
the table state is ignored. -/
def health_check (storeOk : Bool) (_s : DBState) : HealthResponse :=
  if storeOk then
    { statusCode := 200, status := "healthy", database := "connected" }
  else
    { statusCode := 503, status := "unhealthy", database := "disconnected" }

/-- The ids of the persisted rows are pairwise distinct, as the primary
key constraint guarantees. -/
def uniqueIds (rows : List Estudiante) : Prop :=
  (rows.map Estudiante.id).Nodup

/-- Every persisted row has non-null nombre and edad (id is non-null by
construction, being the primary key). -/
def allNonNull (rows : List Estudiante) : Prop :=
  ∀ r ∈ rows, r.nombre ≠ none ∧ r.edad ≠ none

instance (rows : List Estudiante) : Decidable (uniqueIds rows) :=
  inferInstanceAs (Decidable ((rows.map Estudiante.id).Nodup))

instance (rows : List Estudiante) : Decidable (allNonNull rows) :=
  inferInstanceAs (Decidable (∀ r ∈ rows, r.nombre ≠ none ∧ r.edad ≠ none))

/-- When id matches no row, find? over the table returns none. -/
lemma firstById_eq_none_of_fresh (id : Int) (rows : List Estudiante)
    (h : ∀ r ∈ rows, r.id ≠ id) : firstById id rows = none := by
  unfold firstById
  apply List.find?_eq_none.mpr
  intro r hr
  simpa using h r hr

/-- Finding a freshly appended row: earlier rows never carry the fresh id. -/
lemma firstById_append_fresh (id : Int) (rows : List Estudiante)
    (nuevo : Estudiante) (hid : nuevo.id = id) (h : ∀ r ∈ rows, r.id ≠ id) :
    firstById id (rows ++ [nuevo]) = some nuevo := by
  unfold firstById
  rw [List.find?_append]
  have h1 : rows.find? (fun r => r.id == id) = none :=
    firstById_eq_none_of_fresh id rows h
  simp [h1, hid]

/-- C1: creating a student and then getting the returned id yields a record
identical to the created one: same id, same nombre, same edad. -/
theorem C1_create_then_get (e : EstudianteCreate) (s : DBState)
    (hfresh : ∀ r ∈ s.rows, r.id ≠ s.nextId) :
    ∃ resp : EstudianteResponse,
      (crear_estudiante e StoreFail.ok s).fst = Except.ok resp ∧
      resp.nombre = e.nombre ∧ resp.edad = e.edad ∧
      (get_estudiante resp.id true (crear_estudiante e StoreFail.ok s).snd).fst =
        Except.ok { id := resp.id, nombre := some resp.nombre,
                    edad := some resp.edad } := by
  refine ⟨{ id := s.nextId, nombre := e.nombre, edad := e.edad }, rfl, rfl, rfl, ?_⟩
  have hfind : firstById s.nextId
      (s.rows ++ [{ id := s.nextId, nombre := some e.nombre, edad := some e.edad }]) =
      some { id := s.nextId, nombre := some e.nombre, edad := some e.edad } :=
    firstById_append_fresh s.nextId s.rows _ rfl hfresh
  simp [crear_estudiante, get_estudiante, hfind]

/-- C1 witness: creating Ana aged 20 in the empty store and getting the
returned id yields the identical record. -/
theorem C1_create_then_get_witness :
    ∃ resp : EstudianteResponse,
      (crear_estudiante ⟨"Ana", 20⟩ StoreFail.ok ⟨[], 1⟩).fst = Except.ok resp ∧
      resp.nombre = "Ana" ∧ resp.edad = 20 ∧
      (get_estudiante resp.id true
        (crear_estudiante ⟨"Ana", 20⟩ StoreFail.ok ⟨[], 1⟩).snd).fst =
        Except.ok { id := resp.id, nombre := some resp.nombre,
                    edad := some resp.edad } :=
  C1_create_then_get ⟨"Ana", 20⟩ ⟨[], 1⟩ (by decide)

/-- C2: on an id matching no row, Get, Update and Delete each return the
404 not-found error with the state unchanged (no 500, no silent success);
on an id matching a row they each succeed. -/
theorem C2_unknown_id_404 (id : Int) (e : EstudianteCreate) (s : DBState) :
    (firstById id s.rows = none →
      get_estudiante id true s = (Except.error ApiError.notFound, s) ∧
      modificar_estudiante id e StoreFail.ok s = (Except.error ApiError.notFound, s) ∧
      eliminar_estudiante id true s = (Except.error ApiError.notFound, s)) ∧
    (firstById id s.rows ≠ none →
      (∃ r, (get_estudiante id true s).fst = Except.ok r) ∧
      (∃ r, (modificar_estudiante id e StoreFail.ok s).fst = Except.ok r) ∧
      (∃ r, (eliminar_estudiante id true s).fst = Except.ok r)) ∧
    ApiError.notFound.statusCode = 404 := by
  refine ⟨?_, ?_, rfl⟩
  · intro habs
    refine ⟨?_, ?_, ?_⟩ <;> simp [get_estudiante, modificar_estudiante,
      eliminar_estudiante, habs]
  · intro hpres
    match hm : firstById id s.rows with
    | none => exact absurd hm hpres
    | some est =>
      refine ⟨⟨est, ?_⟩, ⟨⟨id, e.nombre, e.edad⟩, ?_⟩,
        ⟨⟨"Estudiante eliminado exitosamente", id⟩, ?_⟩⟩ <;>
        simp [get_estudiante, modificar_estudiante, eliminar_estudiante, hm]

/-- C2 witness: with only the row id 5 persisted, getting id 999999 yields
404 with the state unchanged, and deleting id 5 succeeds. -/
theorem C2_unknown_id_404_witness :
    (get_estudiante 999999 true ⟨[⟨5, some "Ana", some 20⟩], 6⟩ =
      (Except.error ApiError.notFound, ⟨[⟨5, some "Ana", some 20⟩], 6⟩)) ∧
    (∃ r, (eliminar_estudiante 5 true ⟨[⟨5, some "Ana", some 20⟩], 6⟩).fst =
      Except.ok r) := by
  constructor
  · exact ((C2_unknown_id_404 999999 ⟨"Ana", 20⟩ _).1 (by decide)).1
  · exact ((C2_unknown_id_404 5 ⟨"Ana", 20⟩ _).2.1 (by decide)).2.2

/-- C3 counterexample: a Create call in which a store statement fails (the
post-commit refresh) surfaces the 500 store error, yet the persisted state
observed afterwards differs from the state before the call — the insert was
already committed when the refresh raised, and db.rollback() cannot undo a
committed transaction.  So rollback-atomicity does not hold for every
failing Create, Update or Delete call. -/
theorem C3_atomicity_counterexample :
    (crear_estudiante ⟨"Ana", 20⟩ StoreFail.atRefresh ⟨[], 1⟩).fst =
      Except.error ApiError.storeError ∧
    (crear_estudiante ⟨"Ana", 20⟩ StoreFail.atRefresh ⟨[], 1⟩).snd ≠
      (⟨[], 1⟩ : DBState) := by
  refine ⟨rfl, ?_⟩
  intro h
  simp [crear_estudiante] at h

/-- C3 amended: when a store statement of Create, Update or Delete fails at
or before the commit, the active transaction is rolled back before the 500
store error propagates and the persisted state afterwards equals the state
before the call; for Delete every store failure is of this kind, since it
issues no statement after its commit.  But when the post-commit refresh of
Create or Update fails, the 500 propagates with the insert or update
already committed. -/
theorem C3_store_failure_rollback (e : EstudianteCreate) (id : Int) (s : DBState) :
    crear_estudiante e StoreFail.atCommit s = (Except.error ApiError.storeError, s) ∧
    modificar_estudiante id e StoreFail.atCommit s =
      (Except.error ApiError.storeError, s) ∧
    eliminar_estudiante id false s = (Except.error ApiError.storeError, s) ∧
    (crear_estudiante e StoreFail.atRefresh s).fst =
      Except.error ApiError.storeError ∧
    (crear_estudiante e StoreFail.atRefresh s).snd =
      ⟨s.rows ++ [⟨s.nextId, some e.nombre, some e.edad⟩], s.nextId + 1⟩ ∧
    (firstById id s.rows ≠ none →
      modificar_estudiante id e StoreFail.atRefresh s =
        (Except.error ApiError.storeError,
         ⟨updateFirst id e s.rows, s.nextId⟩)) ∧
    ApiError.storeError.statusCode = 500 := by
  refine ⟨rfl, rfl, rfl, rfl, rfl, ?_, rfl⟩
  intro hpres
  match hm : firstById id s.rows with
  | none => exact absurd hm hpres
  | some est => simp [modificar_estudiante, hm]

/-- C3 witness: at concrete inputs, a commit-failing update rolls back to
the pre-call state while a refresh-failing update of the same row leaves
the new values committed. -/
theorem C3_store_failure_rollback_witness :
    modificar_estudiante 1 ⟨"Bea", 21⟩ StoreFail.atCommit
        ⟨[⟨1, some "Ana", some 20⟩], 2⟩ =
      (Except.error ApiError.storeError, ⟨[⟨1, some "Ana", some 20⟩], 2⟩) ∧
    modificar_estudiante 1 ⟨"Bea", 21⟩ StoreFail.atRefresh
        ⟨[⟨1, some "Ana", some 20⟩], 2⟩ =
      (Except.error ApiError.storeError, ⟨[⟨1, some "Bea", some 21⟩], 2⟩) := by
  constructor
  · exact (C3_store_failure_rollback ⟨"Bea", 21⟩ 1
      ⟨[⟨1, some "Ana", some 20⟩], 2⟩).2.1
  · exact ((C3_store_failure_rollback ⟨"Bea", 21⟩ 1
      ⟨[⟨1, some "Ana", some 20⟩], 2⟩).2.2.2.2.2.1 (by decide)).trans rfl

/-- C9: the health endpoint reports 503 with database disconnected exactly
when the trivial store round-trip fails, 200 with database connected exactly
when it succeeds, and its output never depends on the table state. -/
theorem C9_health_check (storeOk : Bool) (s t : DBState) :
    ((health_check storeOk s).statusCode = 503 ∧
      (health_check storeOk s).database = "disconnected" ↔ storeOk = false) ∧
    ((health_check storeOk s).statusCode = 200 ∧
      (health_check storeOk s).database = "connected" ↔ storeOk = true) ∧
    health_check storeOk s = health_check storeOk t := by
  cases storeOk <;> simp [health_check]

/-- C10: List and Get leave the persisted state exactly unchanged, whether
they succeed, fail with 404, or fail with a store error. -/
theorem C10_reads_pure (id : Int) (storeOk : Bool) (s : DBState) :
    (get_estudiantes storeOk s).snd = s ∧ (get_estudiante id storeOk s).snd = s := by
  constructor
  · unfold get_estudiantes
    split <;> rfl
  · unfold get_estudiante
    split
    · cases firstById id s.rows <;> rfl
    · rfl

/-- Strict ascending-id ordering, used to show sorted outputs are unique. -/
def idLt (a b : Estudiante) : Prop := a.id < b.id

instance : IsAntisymm Estudiante idLt :=
  ⟨fun _ _ hab hba => absurd (lt_trans hab hba) (lt_irrefl _)⟩

/-- Sorting preserves the multiset of rows. -/
lemma sortById_perm (l : List Estudiante) : (sortById l).Perm l :=
  List.perm_insertionSort idLe l

/-- The sorted output is ascending in id. -/
lemma sortById_sorted (l : List Estudiante) : (sortById l).Sorted idLe :=
  List.sorted_insertionSort idLe l

/-- With pairwise distinct ids, the sorted output is strictly ascending. -/
lemma sortById_sorted_lt (l : List Estudiante) (hn : uniqueIds l) :
    (sortById l).Sorted idLt := by
  have hs : (sortById l).Sorted idLe := sortById_sorted l
  have hn2 : uniqueIds (sortById l) :=
    ((sortById_perm l).map Estudiante.id).symm.nodup hn
  have hne : (sortById l).Pairwise (fun a b => a.id ≠ b.id) :=
    List.pairwise_map.mp hn2
  exact (hs.and hne).imp (fun hab => lt_of_le_of_ne hab.1 hab.2)

/-- Two stores holding the same rows in any order sort to the same list,
given the primary-key uniqueness of ids. -/
lemma sortById_eq_of_perm (l₁ l₂ : List Estudiante) (hperm : l₁.Perm l₂)
    (hn : uniqueIds l₁) : sortById l₁ = sortById l₂ := by
  have hn₂ : uniqueIds l₂ := (hperm.map Estudiante.id).nodup hn
  have hp : (sortById l₁).Perm (sortById l₂) :=
    ((sortById_perm l₁).trans hperm).trans (sortById_perm l₂).symm
  exact List.eq_of_perm_of_sorted hp (sortById_sorted_lt l₁ hn)
    (sortById_sorted_lt l₂ hn₂)

/-- C4: List returns exactly the persisted rows (a permutation of them),
sorted in ascending id order, and two stores holding the same rows in any
creation order yield the same List output. -/
theorem C4_list_sorted (s t : DBState) (hperm : s.rows.Perm t.rows)
    (hnodup : uniqueIds s.rows) :
    (get_estudiantes true s).fst = Except.ok (sortById s.rows) ∧
    (sortById s.rows).Perm s.rows ∧
    ((sortById s.rows).map Estudiante.id).Sorted (· ≤ ·) ∧
    (get_estudiantes true s).fst = (get_estudiantes true t).fst := by
  refine ⟨rfl, sortById_perm s.rows, ?_, ?_⟩
  · exact List.Pairwise.map _ (fun _ _ hab => hab) (sortById_sorted s.rows)
  · simp only [get_estudiantes, if_true]
    rw [sortById_eq_of_perm s.rows t.rows hperm hnodup]

/-- C4 witness: rows created in order 3,1,2 list the same, sorted 1,2,3, as
rows created in order 1,2,3. -/
theorem C4_list_sorted_witness :
    (get_estudiantes true ⟨[⟨3, some "c", some 3⟩, ⟨1, some "a", some 1⟩,
        ⟨2, some "b", some 2⟩], 4⟩).fst =
      Except.ok [⟨1, some "a", some 1⟩, ⟨2, some "b", some 2⟩,
        ⟨3, some "c", some 3⟩] ∧
    (get_estudiantes true ⟨[⟨3, some "c", some 3⟩, ⟨1, some "a", some 1⟩,
        ⟨2, some "b", some 2⟩], 4⟩).fst =
      (get_estudiantes true ⟨[⟨1, some "a", some 1⟩, ⟨2, some "b", some 2⟩,
        ⟨3, some "c", some 3⟩], 4⟩).fst := by
  constructor
  · rfl
  · exact (C4_list_sorted ⟨[⟨3, some "c", some 3⟩, ⟨1, some "a", some 1⟩,
      ⟨2, some "b", some 2⟩], 4⟩ ⟨[⟨1, some "a", some 1⟩, ⟨2, some "b", some 2⟩,
      ⟨3, some "c", some 3⟩], 4⟩ (by decide) (by decide)).2.2.2

/-- Updating nombre and edad never changes the id column of any row. -/
lemma updateFirst_map_id (id : Int) (e : EstudianteCreate) (l : List Estudiante) :
    (updateFirst id e l).map Estudiante.id = l.map Estudiante.id := by
  induction l with
  | nil => rfl
  | cons r rs ih =>
    by_cases h : r.id == id
    · simp [updateFirst, h]
    · simp [updateFirst, h, ih]

/-- After an update, the row found under id carries the new nombre and edad. -/
lemma firstById_updateFirst (id : Int) (e : EstudianteCreate) (l : List Estudiante)
    (hpres : firstById id l ≠ none) :
    firstById id (updateFirst id e l) =
      some { id := id, nombre := some e.nombre, edad := some e.edad } := by
  induction l with
  | nil => exact absurd rfl hpres
  | cons r rs ih =>
    by_cases h : r.id == id
    · have hid : r.id = id := by simpa using h
      simp [updateFirst, h, firstById, hid]
    · have hpres2 : firstById id rs ≠ none := by
        simpa [firstById, List.find?_cons, h] using hpres
      simpa [updateFirst, h, firstById, List.find?_cons] using ih hpres2

/-- Overwriting the same nombre and edad a second time changes nothing. -/
lemma updateFirst_idem (id : Int) (e : EstudianteCreate) (l : List Estudiante) :
    updateFirst id e (updateFirst id e l) = updateFirst id e l := by
  induction l with
  | nil => rfl
  | cons r rs ih =>
    by_cases h : r.id == id
    · simp [updateFirst, h]
    · simp [updateFirst, h, ih]

/-- C5: updating an existing id twice with the same nombre and edad gives
exactly the same response and the same stored state as updating it once. -/
theorem C5_update_idempotent (id : Int) (e : EstudianteCreate) (s : DBState)
    (hpres : firstById id s.rows ≠ none) :
    modificar_estudiante id e StoreFail.ok
        ((modificar_estudiante id e StoreFail.ok s).snd) =
      modificar_estudiante id e StoreFail.ok s ∧
    (∃ resp, (modificar_estudiante id e StoreFail.ok s).fst = Except.ok resp) := by
  match hm : firstById id s.rows with
  | none => exact absurd hm hpres
  | some est =>
    have hfind := firstById_updateFirst id e s.rows hpres
    constructor
    · simp [modificar_estudiante, hm, hfind, updateFirst_idem]
    · exact ⟨⟨id, e.nombre, e.edad⟩, by simp [modificar_estudiante, hm]⟩

/-- C5 witness: the double update of row 1 equals the single update. -/
theorem C5_update_idempotent_witness :
    modificar_estudiante 1 ⟨"Bea", 21⟩ StoreFail.ok
        ((modificar_estudiante 1 ⟨"Bea", 21⟩ StoreFail.ok
          ⟨[⟨1, some "Ana", some 20⟩], 2⟩).snd) =
      modificar_estudiante 1 ⟨"Bea", 21⟩ StoreFail.ok
        ⟨[⟨1, some "Ana", some 20⟩], 2⟩ :=
  (C5_update_idempotent 1 ⟨"Bea", 21⟩ ⟨[⟨1, some "Ana", some 20⟩], 2⟩ (by decide)).1

/-- With pairwise distinct ids, deleting the row under id leaves no row
matching id. -/
lemma firstById_eraseFirstById (id : Int) (l : List Estudiante)
    (hn : uniqueIds l) : firstById id (eraseFirstById id l) = none := by
  induction l with
  | nil => rfl
  | cons r rs ih =>
    rw [uniqueIds, List.map_cons, List.nodup_cons] at hn
    by_cases h : r.id == id
    · have hid : r.id = id := by simpa using h
      simp only [eraseFirstById, if_pos h]
      apply List.find?_eq_none.mpr
      intro x hx
      simp only [beq_iff_eq, Bool.not_eq_true]
      intro hxid
      have hmem : x.id ∈ rs.map Estudiante.id := List.mem_map_of_mem Estudiante.id hx
      rw [hxid, ← hid] at hmem
      exact hn.1 hmem
    · simp only [eraseFirstById, if_neg h]
      rw [firstById, List.find?_cons_of_neg _ (by simpa using h)]
      exact ih hn.2

/-- Rows surviving a delete were already persisted before it. -/
lemma mem_of_mem_eraseFirstById (id : Int) (l : List Estudiante) (r : Estudiante)
    (hr : r ∈ eraseFirstById id l) : r ∈ l := by
  induction l with
  | nil => exact absurd hr (List.not_mem_nil r)
  | cons a as ih =>
    by_cases h : a.id == id
    · simp only [eraseFirstById, if_pos h] at hr
      exact List.mem_cons_of_mem a hr
    · simp only [eraseFirstById, if_neg h] at hr
      rcases List.mem_cons.mp hr with h1 | h2
      · exact h1 ▸ List.mem_cons_self a as
      · exact List.mem_cons_of_mem a (ih h2)

/-- C6: deleting a persisted id succeeds, confirming that id, and a
subsequent Get of the same id yields the 404 not-found error; no row with
that id survives in the store (hard delete, no tombstone). -/
theorem C6_delete_then_get (id : Int) (s : DBState)
    (hn : uniqueIds s.rows) (hpres : firstById id s.rows ≠ none) :
    (∃ resp : DeleteResponse,
      (eliminar_estudiante id true s).fst = Except.ok resp ∧ resp.id = id) ∧
    (get_estudiante id true (eliminar_estudiante id true s).snd).fst =
      Except.error ApiError.notFound ∧
    (∀ r ∈ ((eliminar_estudiante id true s).snd).rows, r.id ≠ id) := by
  match hm : firstById id s.rows with
  | none => exact absurd hm hpres
  | some est =>
    have hsnd : (eliminar_estudiante id true s).snd =
        ⟨eraseFirstById id s.rows, s.nextId⟩ := by
      simp [eliminar_estudiante, hm]
    have herase := firstById_eraseFirstById id s.rows hn
    refine ⟨⟨⟨"Estudiante eliminado exitosamente", id⟩,
      by simp [eliminar_estudiante, hm], rfl⟩, ?_, ?_⟩
    · rw [hsnd]
      simp [get_estudiante, herase]
    · intro r hr
      rw [hsnd] at hr
      have hnp := List.find?_eq_none.mp herase r hr
      simpa using hnp

/-- C6 witness: after deleting row 5, getting id 5 yields the 404 error. -/
theorem C6_delete_then_get_witness :
    (get_estudiante 5 true (eliminar_estudiante 5 true
        ⟨[⟨5, some "Eva", some 22⟩], 6⟩).snd).fst =
      Except.error ApiError.notFound :=
  (C6_delete_then_get 5 ⟨[⟨5, some "Eva", some 22⟩], 6⟩ (by decide) (by decide)).2.1

/-- A row surviving an update under a different id was already persisted. -/
lemma mem_of_mem_updateFirst_ne (id : Int) (e : EstudianteCreate)
    (l : List Estudiante) (r : Estudiante) (hr : r ∈ updateFirst id e l)
    (hne : r.id ≠ id) : r ∈ l := by
  induction l with
  | nil => exact absurd hr (List.not_mem_nil r)
  | cons a as ih =>
    by_cases h : a.id == id
    · simp only [updateFirst, if_pos h] at hr
      rcases List.mem_cons.mp hr with h1 | h2
      · exfalso
        apply hne
        rw [h1]
        simpa using h
      · exact List.mem_cons_of_mem a h2
    · simp only [updateFirst, if_neg h] at hr
      rcases List.mem_cons.mp hr with h1 | h2
      · exact h1 ▸ List.mem_cons_self a as
      · exact List.mem_cons_of_mem a (ih h2)

/-- A persisted row under a different id survives the update unchanged. -/
lemma mem_updateFirst_of_mem_ne (id : Int) (e : EstudianteCreate)
    (l : List Estudiante) (r : Estudiante) (hr : r ∈ l) (hne : r.id ≠ id) :
    r ∈ updateFirst id e l := by
  induction l with
  | nil => exact absurd hr (List.not_mem_nil r)
  | cons a as ih =>
    rcases List.mem_cons.mp hr with h1 | h2
    · by_cases h : a.id == id
      · exfalso
        apply hne
        rw [h1]
        simpa using h
      · simp only [updateFirst, if_neg h]
        exact h1 ▸ List.mem_cons_self a (updateFirst id e as)
    · by_cases h : a.id == id
      · simp only [updateFirst, if_pos h]
        exact List.mem_cons_of_mem _ h2
      · simp only [updateFirst, if_neg h]
        exact List.mem_cons_of_mem a (ih h2)

/-- C7: a successful update rewrites only nombre and edad of the row under
the given id: the id column of every row is untouched (so no row is created
or removed and the target id is immutable), every other row is exactly the
row persisted before, and the autoincrement counter is unchanged. -/
theorem C7_update_frame (id : Int) (e : EstudianteCreate) (s : DBState)
    (hpres : firstById id s.rows ≠ none) :
    ((modificar_estudiante id e StoreFail.ok s).snd).rows.map Estudiante.id =
      s.rows.map Estudiante.id ∧
    ((modificar_estudiante id e StoreFail.ok s).snd).rows.length = s.rows.length ∧
    (∀ r ∈ ((modificar_estudiante id e StoreFail.ok s).snd).rows,
      r.id ≠ id → r ∈ s.rows) ∧
    (∀ r ∈ s.rows, r.id ≠ id →
      r ∈ ((modificar_estudiante id e StoreFail.ok s).snd).rows) ∧
    firstById id ((modificar_estudiante id e StoreFail.ok s).snd).rows =
      some { id := id, nombre := some e.nombre, edad := some e.edad } ∧
    ((modificar_estudiante id e StoreFail.ok s).snd).nextId = s.nextId := by
  match hm : firstById id s.rows with
  | none => exact absurd hm hpres
  | some est =>
    have hsnd : (modificar_estudiante id e StoreFail.ok s).snd =
        ⟨updateFirst id e s.rows, s.nextId⟩ := by
      simp [modificar_estudiante, hm]
    rw [hsnd]
    refine ⟨updateFirst_map_id id e s.rows, ?_, ?_, ?_,
      firstById_updateFirst id e s.rows hpres, rfl⟩
    · have hlen := congrArg List.length (updateFirst_map_id id e s.rows)
      simpa using hlen
    · intro r hr hne
      exact mem_of_mem_updateFirst_ne id e s.rows r hr hne
    · intro r hr hne
      exact mem_updateFirst_of_mem_ne id e s.rows r hr hne

/-- C7 witness: updating row 1 keeps the id column of both rows and leaves
row 2 in place. -/
theorem C7_update_frame_witness :
    ((modificar_estudiante 1 ⟨"Bea", 21⟩ StoreFail.ok
        ⟨[⟨1, some "Ana", some 20⟩, ⟨2, some "Eva", some 22⟩], 3⟩).snd).rows.map
        Estudiante.id = [1, 2] :=
  ((C7_update_frame 1 ⟨"Bea", 21⟩
    ⟨[⟨1, some "Ana", some 20⟩, ⟨2, some "Eva", some 22⟩], 3⟩ (by decide)).1).trans rfl

/-- List leaves the store state untouched. -/
lemma get_estudiantes_snd (storeOk : Bool) (s : DBState) :
    (get_estudiantes storeOk s).snd = s := by
  unfold get_estudiantes
  split <;> rfl

/-- Get leaves the store state untouched. -/
lemma get_estudiante_snd (id : Int) (storeOk : Bool) (s : DBState) :
    (get_estudiante id storeOk s).snd = s := by
  unfold get_estudiante
  split
  · cases firstById id s.rows <;> rfl
  · rfl

/-- An update writes some-valued nombre and edad, so it preserves the
all-columns-non-null invariant. -/
lemma allNonNull_updateFirst (id : Int) (e : EstudianteCreate)
    (l : List Estudiante) (h : allNonNull l) : allNonNull (updateFirst id e l) := by
  induction l with
  | nil => exact h
  | cons a as ih =>
    intro r hr
    by_cases hc : a.id == id
    · simp only [updateFirst, if_pos hc] at hr
      rcases List.mem_cons.mp hr with h1 | h2
      · rw [h1]
        exact ⟨Option.some_ne_none _, Option.some_ne_none _⟩
      · exact h r (List.mem_cons_of_mem a h2)
    · simp only [updateFirst, if_neg hc] at hr
      rcases List.mem_cons.mp hr with h1 | h2
      · exact h r (h1 ▸ List.mem_cons_self a as)
      · exact ih (fun x hx => h x (List.mem_cons_of_mem a hx)) r h2

/-- The row a create persists carries non-null nombre and edad, so the
appended table keeps the all-columns-non-null invariant. -/
lemma allNonNull_append_nuevo (e : EstudianteCreate) (s : DBState)
    (hinv : allNonNull s.rows) :
    allNonNull (s.rows ++ [⟨s.nextId, some e.nombre, some e.edad⟩]) := by
  intro r hr
  rcases List.mem_append.mp hr with h1 | h2
  · exact hinv r h1
  · have hr2 : r = ⟨s.nextId, some e.nombre, some e.edad⟩ := by simpa using h2
    rw [hr2]
    exact ⟨Option.some_ne_none _, Option.some_ne_none _⟩

/-- C8: every persisted row has non-null nombre and edad (id being the
non-null primary key by construction), the empty table satisfies this, and
each of the five operations preserves it, whether its store statements
succeed or fail — for Create and Update at either failure point. -/
theorem C8_nonnull_invariant (e : EstudianteCreate) (id : Int)
    (fail : StoreFail) (storeOk : Bool) (s : DBState)
    (hinv : allNonNull s.rows) :
    allNonNull ((get_estudiantes storeOk s).snd).rows ∧
    allNonNull ((get_estudiante id storeOk s).snd).rows ∧
    allNonNull ((crear_estudiante e fail s).snd).rows ∧
    allNonNull ((modificar_estudiante id e fail s).snd).rows ∧
    allNonNull ((eliminar_estudiante id storeOk s).snd).rows ∧
    allNonNull ([] : List Estudiante) := by
  refine ⟨?_, ?_, ?_, ?_, ?_, ?_⟩
  · rw [get_estudiantes_snd]
    exact hinv
  · rw [get_estudiante_snd]
    exact hinv
  · cases fail with
    | ok => exact allNonNull_append_nuevo e s hinv
    | atCommit => exact hinv
    | atRefresh => exact allNonNull_append_nuevo e s hinv
  · cases fail with
    | ok =>
      match hm : firstById id s.rows with
      | none => simpa [modificar_estudiante, hm] using hinv
      | some est =>
        simpa [modificar_estudiante, hm] using
          allNonNull_updateFirst id e s.rows hinv
    | atCommit => exact hinv
    | atRefresh =>
      match hm : firstById id s.rows with
      | none => simpa [modificar_estudiante, hm] using hinv
      | some est =>
        simpa [modificar_estudiante, hm] using
          allNonNull_updateFirst id e s.rows hinv
  · cases storeOk with
    | false => exact hinv
    | true =>
      match hm : firstById id s.rows with
      | none => simpa [eliminar_estudiante, hm] using hinv
      | some est =>
        have herase : allNonNull (eraseFirstById id s.rows) :=
          fun r hr => hinv r (mem_of_mem_eraseFirstById id s.rows r hr)
        simpa [eliminar_estudiante, hm] using herase
  · intro r hr
    exact absurd hr (List.not_mem_nil r)

/-- C8 witness: the invariant holds after a create on the empty table and
after a delete on a one-row table. -/
theorem C8_nonnull_invariant_witness :
    allNonNull ((crear_estudiante ⟨"Ana", 20⟩ StoreFail.ok ⟨[], 1⟩).snd).rows ∧
    allNonNull ((eliminar_estudiante 1 true
      ⟨[⟨1, some "Ana", some 20⟩], 2⟩).snd).rows :=
  ⟨(C8_nonnull_invariant ⟨"Ana", 20⟩ 1 StoreFail.ok true ⟨[], 1⟩
     (by decide)).2.2.1,
   (C8_nonnull_invariant ⟨"Ana", 20⟩ 1 StoreFail.ok true
     ⟨[⟨1, some "Ana", some 20⟩], 2⟩ (by decide)).2.2.2.2.1⟩
